import Mathlib

/-!
Verification of the currency-converter Cloudflare Pages functions.

The development shallowly embeds the two request handlers that the
specification's claims are about:

* `src/functions/[from]-to-[to]/[[amount]].js` (`ConvertPage.onRequest`):
  the dynamic conversion page route, and its HTMLRewriter asset-path rules;
* `src/functions/api/rate.js` (`RateApi.onRequestGet`): the rate API.

JavaScript numbers are modelled by `JsNum` (exact rationals plus the
special values `Infinity`, `-Infinity`, `NaN`, and `undefined`, the last
arising from a missing object property), with division, multiplication,
truthiness, `isNaN`, `Number.isFinite`, `<= 0` and `toFixed(2)` given
their ECMAScript semantics on this fragment.  The external collaborators
(template fetch, KV rate store) are modelled by an explicit `Env`, and
the external fetches a handler performs are recorded in an effect trace.
-/

set_option maxRecDepth 4000

namespace CurrencyConverter

/-- JavaScript number (or missing-property) values reachable in the two
handlers: an exact rational stands in for a finite double, plus
`Infinity`, `-Infinity`, `NaN`, and `undefined`. -/
inductive JsNum where
  | num (q : ℚ)
  | posInf
  | negInf
  | nan
  | undefined
  deriving DecidableEq, Repr

/-- JavaScript truthiness of a number-or-undefined value: `0`, `NaN` and
`undefined` are falsy, every other number (including `Infinity`) is truthy. -/
def JsNum.truthy : JsNum → Bool
  | .num q => q ≠ 0
  | .posInf => true
  | .negInf => true
  | .nan => false
  | .undefined => false

/-- JavaScript `isNaN` on an already-numeric value. -/
def JsNum.isNaN : JsNum → Bool
  | .nan => true
  | _ => false

/-- JavaScript `Number.isFinite`. -/
def JsNum.isFinite : JsNum → Bool
  | .num _ => true
  | _ => false

/-- JavaScript comparison `x <= 0` (false on `NaN`, false on `Infinity`,
true on `-Infinity`). -/
def JsNum.leZero : JsNum → Bool
  | .num q => q ≤ 0
  | .negInf => true
  | _ => false

/-- JavaScript division on this fragment: division by zero yields a signed
infinity (or `NaN` for `0/0`), any operand `NaN`/`undefined` yields `NaN`. -/
def JsNum.div : JsNum → JsNum → JsNum
  | .nan, _ => .nan
  | .undefined, _ => .nan
  | _, .nan => .nan
  | _, .undefined => .nan
  | .num a, .num b =>
      if b = 0 then (if a = 0 then .nan else if 0 < a then .posInf else .negInf)
      else .num (a / b)
  | .num _, .posInf => .num 0
  | .num _, .negInf => .num 0
  | .posInf, .num b => if 0 ≤ b then .posInf else .negInf
  | .negInf, .num b => if 0 ≤ b then .negInf else .posInf
  | .posInf, .posInf => .nan
  | .posInf, .negInf => .nan
  | .negInf, .posInf => .nan
  | .negInf, .negInf => .nan

/-- JavaScript multiplication on this fragment. -/
def JsNum.mul : JsNum → JsNum → JsNum
  | .nan, _ => .nan
  | .undefined, _ => .nan
  | _, .nan => .nan
  | _, .undefined => .nan
  | .num a, .num b => .num (a * b)
  | .num a, .posInf => if a = 0 then .nan else if 0 < a then .posInf else .negInf
  | .posInf, .num b => if b = 0 then .nan else if 0 < b then .posInf else .negInf
  | .num a, .negInf => if a = 0 then .nan else if 0 < a then .negInf else .posInf
  | .negInf, .num b => if b = 0 then .nan else if 0 < b then .negInf else .posInf
  | .posInf, .posInf => .posInf
  | .posInf, .negInf => .negInf
  | .negInf, .posInf => .negInf
  | .negInf, .negInf => .posInf

/-- Rounding to two decimals as specified for `Number.prototype.toFixed(2)`:
the integer `n` with `n / 100` closest to the value, ties taking the larger
`n`; infinities and `NaN` pass through. -/
def qToFixed2 (q : ℚ) : ℚ := ((⌊q * 100 + 1 / 2⌋ : ℤ) : ℚ) / 100

/-- `toFixed(2)` on a JavaScript number (the numeric value of the string
the method produces). -/
def JsNum.toFixed2 : JsNum → JsNum
  | .num q => .num (qToFixed2 q)
  | x => x

/-- ASCII decimal digit test. -/
def isDigitCh (c : Char) : Bool := '0' ≤ c ∧ c ≤ '9'

/-- Split a character list into its longest digit prefix and the rest. -/
def takeDigits : List Char → List Char × List Char
  | [] => ([], [])
  | c :: cs =>
      if isDigitCh c then
        let r := takeDigits cs
        (c :: r.1, r.2)
      else ([], c :: cs)

/-- Value of a digit list read in base ten. -/
def digitsToNat (l : List Char) : ℕ :=
  l.foldl (fun a c => 10 * a + (c.toNat - 48)) 0

/-- JavaScript whitespace skipped by `parseFloat`. -/
def isJsWs (c : Char) : Bool :=
  c = ' ' ∨ c = '\t' ∨ c = '\n' ∨ c = '\r' ∨ c = '\x0b' ∨ c = '\x0c'

/-- ECMAScript `parseFloat`: skip leading whitespace, read an optional
sign, then the longest prefix that is `Infinity` or a decimal literal
(digits, optional fraction, optional exponent); `NaN` when no digits are
found.  Finite results are exact rationals. -/
def parseFloat (s : String) : JsNum :=
  let l := s.toList.dropWhile isJsWs
  let sgn : ℚ := match l with
    | '-' :: _ => -1
    | _ => 1
  let l := match l with
    | '+' :: r => r
    | '-' :: r => r
    | _ => l
  if l.take 8 = "Infinity".toList then
    (if sgn = 1 then .posInf else .negInf)
  else
    let ipr := takeDigits l
    let fpr := match ipr.2 with
      | '.' :: rest => takeDigits rest
      | _ => ([], ipr.2)
    if ipr.1 = [] ∧ fpr.1 = [] then .nan
    else
      let mant : ℚ :=
        ((digitsToNat ipr.1 * 10 ^ fpr.1.length + digitsToNat fpr.1 : ℕ) : ℚ) /
          ((10 ^ fpr.1.length : ℕ) : ℚ)
      let e : ℤ := match fpr.2 with
        | c :: rest =>
            if c = 'e' ∨ c = 'E' then
              let esr : ℤ × List Char := match rest with
                | '+' :: rr => (1, rr)
                | '-' :: rr => (-1, rr)
                | _ => (1, rest)
              let ed := takeDigits esr.2
              if ed.1 = [] then 0 else esr.1 * (digitsToNat ed.1 : ℤ)
            else 0
        | [] => 0
      let scale : ℚ :=
        if 0 ≤ e then ((10 ^ e.toNat : ℕ) : ℚ)
        else 1 / ((10 ^ (-e).toNat : ℕ) : ℚ)
      .num (sgn * mant * scale)

/-- Uppercasing as `String.prototype.toUpperCase` acts on the ASCII
strings reaching it here. -/
def jsToUpper (s : String) : String := String.mk (s.data.map Char.toUpper)

/-- JavaScript `startsWith`. -/
def jsStartsWith (s p : String) : Bool := p.data.isPrefixOf s.data

/-- The rate table stored in KV under `usd-rates`: a `rates` map from
currency code to number, base USD implicit. -/
structure RateTable where
  rates : List (String × ℚ)
  deriving DecidableEq, Repr

/-- External collaborators of one request: whether the template fetch
succeeds, and the parsed KV value (`none` models both a missing KV entry
and one without a `rates` field). -/
structure Env where
  templateOk : Bool
  table : Option RateTable
  deriving DecidableEq, Repr

/-- External fetches a handler can perform, in order. -/
inductive Effect where
  | fetchTemplate
  | kvGet
  deriving DecidableEq, Repr

/-- Observable response: status, headers, and the rate / converted amount
the handler embeds in a success body (`none` on error responses, and
`converted` is `none` for the rate API, which returns only the rate). -/
structure HttpResponse where
  status : ℕ
  headers : List (String × String)
  rate : Option JsNum
  converted : Option JsNum
  deriving DecidableEq, Repr

/-- A bare error `Response(msg, {status})`: no explicit headers, no rate. -/
def errResp (st : ℕ) : HttpResponse := ⟨st, [], none, none⟩

/-- JavaScript property access `table.rates[c]`: `undefined` when absent. -/
def getRate (t : RateTable) (c : String) : JsNum :=
  match t.rates.lookup c with
  | some q => .num q
  | none => .undefined

/-- The cross-rate computation shared verbatim by the page route (lines
56–74) and the rate API (lines 30–48): direct rate from USD, inverse rate
to USD, otherwise `rates[to] / rates[from]` guarded by a truthiness check
on both entries (`.error ()` is the early `Currency not found` 404). -/
def crossRate (t : RateTable) (fromCurrency toCurrency : String) :
    Except Unit JsNum :=
  if fromCurrency = "USD" then
    .ok (getRate t toCurrency)
  else if toCurrency = "USD" then
    .ok ((JsNum.num 1).div (getRate t fromCurrency))
  else
    let usdToTarget := getRate t toCurrency
    let usdToSource := getRate t fromCurrency
    if !usdToTarget.truthy || !usdToSource.truthy then .error ()
    else .ok (usdToTarget.div usdToSource)

/-- The `/^[A-Z]{3}$/` currency-code test. -/
def valid3 (s : String) : Bool :=
  s.length = 3 && s.data.all (fun c => 'A' ≤ c && c ≤ 'Z')

/-- Validity of `params.from?.toUpperCase()`-style optional codes: the
code's `!fromCurrency || !/^[A-Z]{3}$/.test(fromCurrency)` rejects a
missing parameter, and the regex itself rejects the empty string. -/
def validOpt : Option String → Bool
  | some s => valid3 s
  | none => false

namespace ConvertPage

/-- Path parameters of `/[from]-to-[to]/[[amount]]`. -/
structure PageParams where
  fromParam : Option String
  toParam : Option String
  amountParam : Option String
  deriving DecidableEq, Repr

/-- `params.from?.toUpperCase()`. -/
def pageFrom (p : PageParams) : Option String := p.fromParam.map jsToUpper

/-- `params.to?.toUpperCase()`. -/
def pageTo (p : PageParams) : Option String := p.toParam.map jsToUpper

/-- `params.amount ? parseFloat(params.amount) : 1` — a missing or empty
(falsy) amount segment defaults to `1` without being parsed. -/
def pageAmount (p : PageParams) : JsNum :=
  match p.amountParam with
  | some s => if s != "" then parseFloat s else JsNum.num 1
  | none => JsNum.num 1

/-- Headers set on the page route's 200 response (lines 274–277). -/
def pageHeaders : List (String × String) :=
  [("Cache-Control", "no-cache, no-store, must-revalidate"),
   ("Pragma", "no-cache"),
   ("Expires", "0"),
   ("Content-Type", "text/html; charset=utf-8")]

/-- Line 80: `const convertedAmount = (amount * rate).toFixed(2)`. -/
def convertedAmount (amount rate : JsNum) : JsNum := (amount.mul rate).toFixed2

/-- The conversion page handler of
`src/functions/[from]-to-[to]/[[amount]].js`: validate the currency pair
(404) and the amount (400), fetch the template (404 when not OK), read
the KV rate table (503 when absent), compute the cross rate (404 paths),
and otherwise emit the 200 page whose hydration payload carries `rate`
and whose rendered result is `(amount * rate).toFixed(2)`.  The second
component records the external fetches performed. -/
def onRequest (p : PageParams) (env : Env) : HttpResponse × List Effect :=
  let fromCurrency := pageFrom p
  let toCurrency := pageTo p
  let amount := pageAmount p
  if !(validOpt fromCurrency && validOpt toCurrency) then
    (errResp 404, [])
  else if amount.isNaN || amount.leZero then
    (errResp 400, [])
  else if !env.templateOk then
    (errResp 404, [Effect.fetchTemplate])
  else
    match env.table with
    | none => (errResp 503, [Effect.fetchTemplate, Effect.kvGet])
    | some t =>
      match crossRate t (fromCurrency.getD "") (toCurrency.getD "") with
      | .error _ => (errResp 404, [Effect.fetchTemplate, Effect.kvGet])
      | .ok rate =>
        if !rate.truthy then
          (errResp 404, [Effect.fetchTemplate, Effect.kvGet])
        else
          ({ status := 200, headers := pageHeaders, rate := some rate,
             converted := some (convertedAmount amount rate) },
           [Effect.fetchTemplate, Effect.kvGet])

/-- `link[href]` rewrite rule (lines 105–112). -/
def fixLinkHref (href : String) : String :=
  if href != "" && !jsStartsWith href "http" && !jsStartsWith href "/" &&
      !jsStartsWith href "#" then
    "/" ++ href
  else href

/-- `script[src]` rewrite rule (lines 113–120). -/
def fixScriptSrc (src : String) : String :=
  if src != "" && !jsStartsWith src "http" && !jsStartsWith src "/" then
    "/" ++ src
  else src

/-- `img[src]` rewrite rule (lines 121–128). -/
def fixImgSrc (src : String) : String :=
  if src != "" && !jsStartsWith src "http" && !jsStartsWith src "/" &&
      !jsStartsWith src "data:" then
    "/" ++ src
  else src

/-- `a[href]` rewrite rule (lines 129–137). -/
def fixAnchorHref (href : String) : String :=
  if href != "" && !jsStartsWith href "http" && !jsStartsWith href "/" &&
      !jsStartsWith href "#" && !jsStartsWith href "mailto:" &&
      !jsStartsWith href "tel:" then
    "/" ++ href
  else href

end ConvertPage

namespace RateApi

/-- `searchParams.get(k) || dflt`: a missing or empty parameter falls
back to the default. -/
def jsOr (o : Option String) (dflt : String) : String :=
  match o with
  | some s => if s != "" then s else dflt
  | none => dflt

/-- Headers of the rate API's 200 response (lines 56–62). -/
def apiHeaders : List (String × String) :=
  [("Content-Type", "text/plain"),
   ("Cache-Control", "no-cache, no-store, must-revalidate"),
   ("Pragma", "no-cache"),
   ("Expires", "0"),
   ("Access-Control-Allow-Origin", "*")]

/-- The rate API handler of `src/functions/api/rate.js`: default the
query parameters to `USD`/`EUR`, uppercase, validate (400), read the KV
table (503), compute the cross rate (404 paths, including the
`!rate || !Number.isFinite(rate)` guard), and return the rate. -/
def onRequestGet (qFrom qTo : Option String) (env : Env) : HttpResponse :=
  let fromCurrency := jsToUpper (jsOr qFrom "USD")
  let toCurrency := jsToUpper (jsOr qTo "EUR")
  if !(valid3 fromCurrency && valid3 toCurrency) then
    errResp 400
  else
    match env.table with
    | none => errResp 503
    | some t =>
      match crossRate t fromCurrency toCurrency with
      | .error _ => errResp 404
      | .ok rate =>
        if !rate.truthy || !rate.isFinite then errResp 404
        else { status := 200, headers := apiHeaders, rate := some rate,
               converted := none }

end RateApi

/-- Test fixture: the rate table of the specification's scenarios,
`{base: USD, rates: {EUR: 0.85, JPY: 150}}`. -/
def t0 : RateTable := ⟨[("EUR", 17 / 20), ("JPY", 150)]⟩

/-- Test fixture: template reachable, table `t0` stored. -/
def env0 : Env := ⟨true, some t0⟩

/-- Test fixture: a table whose only stored rate is zero. -/
def tZero : RateTable := ⟨[("EUR", 0)]⟩

/-- A valid 3-letter code is in particular nonempty (truthy). -/
lemma valid3_ne_empty {s : String} (h : valid3 s = true) : (s != "") = true := by
  rcases eq_or_ne s "" with rfl | hne
  · simp [valid3] at h
  · simp [bne_iff_ne, hne]

/-- Prepending a slash makes `startsWith("/")` hold. -/
lemma jsStartsWith_slash_append (s : String) :
    jsStartsWith ("/" ++ s) "/" = true := by
  simp [jsStartsWith, List.isPrefixOf]

/-- The page route rejects an invalid currency pair with a bare 404
before doing anything else. -/
lemma ConvertPage.onRequest_invalid (p : ConvertPage.PageParams) (env : Env)
    (h : (validOpt (ConvertPage.pageFrom p) &&
        validOpt (ConvertPage.pageTo p)) = false) :
    ConvertPage.onRequest p env = (errResp 404, []) := by
  unfold ConvertPage.onRequest
  simp [h]

/-- The page route rejects an invalid amount with a bare 400 before any
fetch, once the currency pair is valid. -/
lemma ConvertPage.onRequest_badAmount (p : ConvertPage.PageParams) (env : Env)
    (h : (validOpt (ConvertPage.pageFrom p) &&
        validOpt (ConvertPage.pageTo p)) = true)
    (ha : ((ConvertPage.pageAmount p).isNaN ||
        (ConvertPage.pageAmount p).leZero) = true) :
    ConvertPage.onRequest p env = (errResp 400, []) := by
  unfold ConvertPage.onRequest
  simp [h, ha]

/-- Successful run of the page route. -/
lemma ConvertPage.onRequest_success (p : ConvertPage.PageParams) (env : Env)
    (t : RateTable) (r : JsNum)
    (h : (validOpt (ConvertPage.pageFrom p) &&
        validOpt (ConvertPage.pageTo p)) = true)
    (ha : ((ConvertPage.pageAmount p).isNaN ||
        (ConvertPage.pageAmount p).leZero) = false)
    (ht : env.templateOk = true)
    (htab : env.table = some t)
    (hcr : crossRate t ((ConvertPage.pageFrom p).getD "")
        ((ConvertPage.pageTo p).getD "") = .ok r)
    (hr : r.truthy = true) :
    ConvertPage.onRequest p env =
      ({ status := 200, headers := ConvertPage.pageHeaders, rate := some r,
         converted := some (ConvertPage.convertedAmount
           (ConvertPage.pageAmount p) r) },
       [Effect.fetchTemplate, Effect.kvGet]) := by
  unfold ConvertPage.onRequest
  simp [h, ha, ht, htab, hcr, hr]

/-- The page route turns an early cross-rate failure into a bare 404. -/
lemma ConvertPage.onRequest_rateError (p : ConvertPage.PageParams) (env : Env)
    (t : RateTable)
    (h : (validOpt (ConvertPage.pageFrom p) &&
        validOpt (ConvertPage.pageTo p)) = true)
    (ha : ((ConvertPage.pageAmount p).isNaN ||
        (ConvertPage.pageAmount p).leZero) = false)
    (ht : env.templateOk = true)
    (htab : env.table = some t)
    (hcr : crossRate t ((ConvertPage.pageFrom p).getD "")
        ((ConvertPage.pageTo p).getD "") = .error ()) :
    ConvertPage.onRequest p env =
      (errResp 404, [Effect.fetchTemplate, Effect.kvGet]) := by
  unfold ConvertPage.onRequest
  simp [h, ha, ht, htab, hcr]

/-- The page route turns a falsy computed rate into a bare 404. -/
lemma ConvertPage.onRequest_rateFalsy (p : ConvertPage.PageParams) (env : Env)
    (t : RateTable) (r : JsNum)
    (h : (validOpt (ConvertPage.pageFrom p) &&
        validOpt (ConvertPage.pageTo p)) = true)
    (ha : ((ConvertPage.pageAmount p).isNaN ||
        (ConvertPage.pageAmount p).leZero) = false)
    (ht : env.templateOk = true)
    (htab : env.table = some t)
    (hcr : crossRate t ((ConvertPage.pageFrom p).getD "")
        ((ConvertPage.pageTo p).getD "") = .ok r)
    (hr : r.truthy = false) :
    ConvertPage.onRequest p env =
      (errResp 404, [Effect.fetchTemplate, Effect.kvGet]) := by
  unfold ConvertPage.onRequest
  simp [h, ha, ht, htab, hcr, hr]

/-- Successful run of the rate API. -/
lemma RateApi.onRequestGet_success (qf qt : Option String) (env : Env)
    (t : RateTable) (r : JsNum)
    (h : (valid3 (jsToUpper (RateApi.jsOr qf "USD")) &&
        valid3 (jsToUpper (RateApi.jsOr qt "EUR"))) = true)
    (htab : env.table = some t)
    (hcr : crossRate t (jsToUpper (RateApi.jsOr qf "USD"))
        (jsToUpper (RateApi.jsOr qt "EUR")) = .ok r)
    (hr : (!r.truthy || !r.isFinite) = false) :
    RateApi.onRequestGet qf qt env =
      { status := 200, headers := RateApi.apiHeaders, rate := some r,
        converted := none } := by
  unfold RateApi.onRequestGet
  simp [h, htab, hcr, hr]

/-- The rate API turns an early cross-rate failure into a bare 404. -/
lemma RateApi.onRequestGet_rateError (qf qt : Option String) (env : Env)
    (t : RateTable)
    (h : (valid3 (jsToUpper (RateApi.jsOr qf "USD")) &&
        valid3 (jsToUpper (RateApi.jsOr qt "EUR"))) = true)
    (htab : env.table = some t)
    (hcr : crossRate t (jsToUpper (RateApi.jsOr qf "USD"))
        (jsToUpper (RateApi.jsOr qt "EUR")) = .error ()) :
    RateApi.onRequestGet qf qt env = errResp 404 := by
  unfold RateApi.onRequestGet
  simp [h, htab, hcr]

/-- The rate API rejects a falsy or non-finite computed rate with 404. -/
lemma RateApi.onRequestGet_rateReject (qf qt : Option String) (env : Env)
    (t : RateTable) (r : JsNum)
    (h : (valid3 (jsToUpper (RateApi.jsOr qf "USD")) &&
        valid3 (jsToUpper (RateApi.jsOr qt "EUR"))) = true)
    (htab : env.table = some t)
    (hcr : crossRate t (jsToUpper (RateApi.jsOr qf "USD"))
        (jsToUpper (RateApi.jsOr qt "EUR")) = .ok r)
    (hr : (!r.truthy || !r.isFinite) = true) :
    RateApi.onRequestGet qf qt env = errResp 404 := by
  unfold RateApi.onRequestGet
  simp [h, htab, hcr, hr]

/-- An `href` already starting with `/` is left unchanged by the link rule. -/
lemma ConvertPage.fixLinkHref_absolute {s : String}
    (h : jsStartsWith s "/" = true) : ConvertPage.fixLinkHref s = s := by
  unfold ConvertPage.fixLinkHref
  simp [h]

/-- A `src` already starting with `/` is left unchanged by the script rule. -/
lemma ConvertPage.fixScriptSrc_absolute {s : String}
    (h : jsStartsWith s "/" = true) : ConvertPage.fixScriptSrc s = s := by
  unfold ConvertPage.fixScriptSrc
  simp [h]

/-- A `src` already starting with `/` is left unchanged by the img rule. -/
lemma ConvertPage.fixImgSrc_absolute {s : String}
    (h : jsStartsWith s "/" = true) : ConvertPage.fixImgSrc s = s := by
  unfold ConvertPage.fixImgSrc
  simp [h]

/-- An `href` already starting with `/` is left unchanged by the anchor rule. -/
lemma ConvertPage.fixAnchorHref_absolute {s : String}
    (h : jsStartsWith s "/" = true) : ConvertPage.fixAnchorHref s = s := by
  unfold ConvertPage.fixAnchorHref
  simp [h]

/-- The link rule is idempotent. -/
lemma ConvertPage.fixLinkHref_idem (s : String) :
    ConvertPage.fixLinkHref (ConvertPage.fixLinkHref s) =
      ConvertPage.fixLinkHref s := by
  by_cases h : (s != "" && !jsStartsWith s "http" && !jsStartsWith s "/" &&
      !jsStartsWith s "#") = true
  · have h1 : ConvertPage.fixLinkHref s = "/" ++ s := by
      unfold ConvertPage.fixLinkHref
      rw [if_pos h]
    rw [h1, ConvertPage.fixLinkHref_absolute (jsStartsWith_slash_append s)]
  · have h1 : ConvertPage.fixLinkHref s = s := by
      unfold ConvertPage.fixLinkHref
      rw [if_neg h]
    rw [h1, h1]

/-- The script rule is idempotent. -/
lemma ConvertPage.fixScriptSrc_idem (s : String) :
    ConvertPage.fixScriptSrc (ConvertPage.fixScriptSrc s) =
      ConvertPage.fixScriptSrc s := by
  by_cases h : (s != "" && !jsStartsWith s "http" &&
      !jsStartsWith s "/") = true
  · have h1 : ConvertPage.fixScriptSrc s = "/" ++ s := by
      unfold ConvertPage.fixScriptSrc
      rw [if_pos h]
    rw [h1, ConvertPage.fixScriptSrc_absolute (jsStartsWith_slash_append s)]
  · have h1 : ConvertPage.fixScriptSrc s = s := by
      unfold ConvertPage.fixScriptSrc
      rw [if_neg h]
    rw [h1, h1]

/-- The img rule is idempotent. -/
lemma ConvertPage.fixImgSrc_idem (s : String) :
    ConvertPage.fixImgSrc (ConvertPage.fixImgSrc s) =
      ConvertPage.fixImgSrc s := by
  by_cases h : (s != "" && !jsStartsWith s "http" && !jsStartsWith s "/" &&
      !jsStartsWith s "data:") = true
  · have h1 : ConvertPage.fixImgSrc s = "/" ++ s := by
      unfold ConvertPage.fixImgSrc
      rw [if_pos h]
    rw [h1, ConvertPage.fixImgSrc_absolute (jsStartsWith_slash_append s)]
  · have h1 : ConvertPage.fixImgSrc s = s := by
      unfold ConvertPage.fixImgSrc
      rw [if_neg h]
    rw [h1, h1]

/-- The anchor rule is idempotent. -/
lemma ConvertPage.fixAnchorHref_idem (s : String) :
    ConvertPage.fixAnchorHref (ConvertPage.fixAnchorHref s) =
      ConvertPage.fixAnchorHref s := by
  by_cases h : (s != "" && !jsStartsWith s "http" && !jsStartsWith s "/" &&
      !jsStartsWith s "#" && !jsStartsWith s "mailto:" &&
      !jsStartsWith s "tel:") = true
  · have h1 : ConvertPage.fixAnchorHref s = "/" ++ s := by
      unfold ConvertPage.fixAnchorHref
      rw [if_pos h]
    rw [h1, ConvertPage.fixAnchorHref_absolute (jsStartsWith_slash_append s)]
  · have h1 : ConvertPage.fixAnchorHref s = s := by
      unfold ConvertPage.fixAnchorHref
      rw [if_neg h]
    rw [h1, h1]

/-- C6: each of the four asset-path-fixing rewrite rules (`link[href]`,
`script[src]`, `img[src]`, `a[href]`) is idempotent on every attribute
string — applying the normalization twice gives the same result as
applying it once — and an already-absolute path (one starting with `/`)
is left unchanged by every rule. -/
theorem claim_C6 (s : String) :
    ConvertPage.fixLinkHref (ConvertPage.fixLinkHref s) =
        ConvertPage.fixLinkHref s ∧
    ConvertPage.fixScriptSrc (ConvertPage.fixScriptSrc s) =
        ConvertPage.fixScriptSrc s ∧
    ConvertPage.fixImgSrc (ConvertPage.fixImgSrc s) =
        ConvertPage.fixImgSrc s ∧
    ConvertPage.fixAnchorHref (ConvertPage.fixAnchorHref s) =
        ConvertPage.fixAnchorHref s ∧
    (jsStartsWith s "/" = true →
      ConvertPage.fixLinkHref s = s ∧ ConvertPage.fixScriptSrc s = s ∧
      ConvertPage.fixImgSrc s = s ∧ ConvertPage.fixAnchorHref s = s) :=
  ⟨ConvertPage.fixLinkHref_idem s, ConvertPage.fixScriptSrc_idem s,
   ConvertPage.fixImgSrc_idem s, ConvertPage.fixAnchorHref_idem s,
   fun h => ⟨ConvertPage.fixLinkHref_absolute h,
     ConvertPage.fixScriptSrc_absolute h,
     ConvertPage.fixImgSrc_absolute h,
     ConvertPage.fixAnchorHref_absolute h⟩⟩

/-- Witness for C6 at concrete inputs: the relative path `css/app.css`
and the absolute path `/css/app.css`. -/
theorem claim_C6_witness :
    ConvertPage.fixAnchorHref (ConvertPage.fixAnchorHref "css/app.css") =
        ConvertPage.fixAnchorHref "css/app.css" ∧
    ConvertPage.fixLinkHref "/css/app.css" = "/css/app.css" :=
  ⟨(claim_C6 "css/app.css").2.2.2.1,
   ((claim_C6 "/css/app.css").2.2.2.2 (by decide)).1⟩

/-- C7: the conversion calculation `(amount * rate).toFixed(2)` is
monotonic in the amount: for a fixed positive rate and positive amounts
`a₁ ≤ a₂`, the rounded converted amount for `a₁` is at most the one for
`a₂`. -/
theorem claim_C7 (r a₁ a₂ : ℚ) (hr : 0 < r) (_ha : 0 < a₁) (h12 : a₁ ≤ a₂) :
    ConvertPage.convertedAmount (.num a₁) (.num r) =
        .num (qToFixed2 (a₁ * r)) ∧
    ConvertPage.convertedAmount (.num a₂) (.num r) =
        .num (qToFixed2 (a₂ * r)) ∧
    qToFixed2 (a₁ * r) ≤ qToFixed2 (a₂ * r) := by
  refine ⟨rfl, rfl, ?_⟩
  unfold qToFixed2
  have hm : a₁ * r ≤ a₂ * r := mul_le_mul_of_nonneg_right h12 hr.le
  have hf : (⌊a₁ * r * 100 + 1 / 2⌋ : ℤ) ≤ ⌊a₂ * r * 100 + 1 / 2⌋ := by
    apply Int.floor_le_floor
    linarith
  have hc : ((⌊a₁ * r * 100 + 1 / 2⌋ : ℤ) : ℚ) ≤
      ((⌊a₂ * r * 100 + 1 / 2⌋ : ℤ) : ℚ) := by exact_mod_cast hf
  linarith

/-- Witness for C7 at rate 2 and amounts 1 ≤ 3. -/
theorem claim_C7_witness :
    ConvertPage.convertedAmount (.num 1) (.num 2) =
        .num (qToFixed2 (1 * 2)) ∧
    ConvertPage.convertedAmount (.num 3) (.num 2) =
        .num (qToFixed2 (3 * 2)) ∧
    qToFixed2 (1 * 2) ≤ qToFixed2 (3 * 2) :=
  claim_C7 2 1 3 (by norm_num) (by norm_num) (by norm_num)

/-- C9: the page route is invariant under the letter-case of the path
currency segments — both parameters are uppercased before validation and
every lookup, so two requests that differ only in the case of the
`from`/`to` segments produce identical responses and effect traces. -/
theorem claim_C9 (f₁ f₂ c₁ c₂ : String) (a : Option String) (env : Env)
    (hf : jsToUpper f₁ = jsToUpper f₂) (hc : jsToUpper c₁ = jsToUpper c₂) :
    ConvertPage.onRequest ⟨some f₁, some c₁, a⟩ env =
      ConvertPage.onRequest ⟨some f₂, some c₂, a⟩ env := by
  unfold ConvertPage.onRequest
  simp only [ConvertPage.pageFrom, ConvertPage.pageTo,
    ConvertPage.pageAmount, Option.map_some']
  rw [hf, hc]

/-- Witness for C9: `/usd-to-eur` and `/USD-to-EUR` coincide. -/
theorem claim_C9_witness :
    ConvertPage.onRequest ⟨some "usd", some "eur", none⟩ env0 =
      ConvertPage.onRequest ⟨some "USD", some "EUR", none⟩ env0 :=
  claim_C9 "usd" "USD" "eur" "EUR" none env0 (by decide) (by decide)

/-- `toFixed(2)` of 1 is 1. -/
lemma qToFixed2_one : qToFixed2 1 = 1 := by
  have hf : (⌊(1 : ℚ) * 100 + 1 / 2⌋ : ℤ) = 100 := by
    rw [Int.floor_eq_iff]
    norm_num
  unfold qToFixed2
  rw [hf]
  norm_num

/-- C1 counterexample: the code has no `from == to` short-circuit.  In
the scenario table (which, like every table produced by the fetch job,
has no `USD` key — the base is implicit), the request `/usd-to-usd`
reaches `rate = rates['USD'] = undefined`, fails the `!rate` check and
returns 404 — not the claimed 200 with rate 1. -/
theorem claim_C1_counterexample :
    valid3 "USD" = true ∧
    t0.rates.lookup "USD" = none ∧
    (ConvertPage.onRequest ⟨some "usd", some "usd", none⟩ env0).1 =
      errResp 404 := by
  refine ⟨by decide, by decide, ?_⟩
  simp +decide [ConvertPage.onRequest, ConvertPage.pageFrom,
    ConvertPage.pageTo, ConvertPage.pageAmount, jsToUpper, valid3, validOpt,
    crossRate, getRate, List.lookup, env0, t0, JsNum.truthy, JsNum.isNaN,
    JsNum.leZero, errResp]

/-- C1 (amended): resolving `from == to == X` yields rate 1 and a 200
response only when `X` differs from the base `USD` and is present in the
rates map with a nonzero entry — the code computes `rates[X]/rates[X]`,
reading the table; when `X` is `USD` (absent from the map) or absent,
the route returns 404 instead (there is no `from == to` short-circuit). -/
theorem claim_C1 (t : RateTable) (X : String) (q : ℚ)
    (hX : X ≠ "USD") (hv : valid3 X = true) (hu : jsToUpper X = X)
    (hq : t.rates.lookup X = some q) (hq0 : q ≠ 0) :
    crossRate t X X = .ok (.num 1) ∧
    (ConvertPage.onRequest ⟨some X, some X, none⟩ ⟨true, some t⟩).1 =
      { status := 200, headers := ConvertPage.pageHeaders,
        rate := some (.num 1), converted := some (.num 1) } := by
  have hcr : crossRate t X X = .ok (.num 1) := by
    unfold crossRate
    rw [if_neg hX, if_neg hX]
    simp [getRate, hq, JsNum.truthy, JsNum.div, hq0, div_self hq0]
  refine ⟨hcr, ?_⟩
  have hsucc := ConvertPage.onRequest_success ⟨some X, some X, none⟩
    ⟨true, some t⟩ t (.num 1)
    (by simp [ConvertPage.pageFrom, ConvertPage.pageTo, hu, validOpt, hv])
    (by norm_num [ConvertPage.pageAmount, JsNum.isNaN, JsNum.leZero]) rfl rfl
    (by simpa [ConvertPage.pageFrom, ConvertPage.pageTo, hu] using hcr)
    (by decide)
  rw [hsucc]
  simp [ConvertPage.convertedAmount, ConvertPage.pageAmount, JsNum.mul,
    JsNum.toFixed2, qToFixed2_one]

/-- Witness for C1 (amended) at `X = EUR` in the scenario table. -/
theorem claim_C1_witness :
    crossRate t0 "EUR" "EUR" = .ok (.num 1) ∧
    (ConvertPage.onRequest ⟨some "EUR", some "EUR", none⟩
        ⟨true, some t0⟩).1 =
      { status := 200, headers := ConvertPage.pageHeaders,
        rate := some (.num 1), converted := some (.num 1) } :=
  claim_C1 t0 "EUR" (17 / 20) (by decide) (by decide) (by decide)
    (by rfl) (by norm_num)

/-- C3: for a table with base USD and a pair `from`, `to` both non-base
and both present with positive entries, the resolved rate is
`rates[to] / rates[from]` and the page renders it. -/
theorem claim_C3 (t : RateTable) (f c : String) (a b : ℚ)
    (hf : f ≠ "USD") (hc : c ≠ "USD")
    (hfv : valid3 f = true) (hcv : valid3 c = true)
    (hfu : jsToUpper f = f) (hcu : jsToUpper c = c)
    (ha : t.rates.lookup f = some a) (hb : t.rates.lookup c = some b)
    (ha0 : 0 < a) (hb0 : 0 < b) :
    crossRate t f c = .ok (.num (b / a)) ∧
    (ConvertPage.onRequest ⟨some f, some c, none⟩ ⟨true, some t⟩).1 =
      { status := 200, headers := ConvertPage.pageHeaders,
        rate := some (.num (b / a)),
        converted := some (.num (qToFixed2 (b / a))) } := by
  have hcr : crossRate t f c = .ok (.num (b / a)) := by
    unfold crossRate
    rw [if_neg hf, if_neg hc]
    simp [getRate, ha, hb, JsNum.truthy, JsNum.div, ha0.ne', hb0.ne']
  refine ⟨hcr, ?_⟩
  have hsucc := ConvertPage.onRequest_success ⟨some f, some c, none⟩
    ⟨true, some t⟩ t (.num (b / a))
    (by simp [ConvertPage.pageFrom, ConvertPage.pageTo, hfu, hcu, validOpt,
      hfv, hcv])
    (by norm_num [ConvertPage.pageAmount, JsNum.isNaN, JsNum.leZero]) rfl rfl
    (by simpa [ConvertPage.pageFrom, ConvertPage.pageTo, hfu, hcu] using hcr)
    (by simp [JsNum.truthy, div_ne_zero hb0.ne' ha0.ne'])
  rw [hsucc]
  simp [ConvertPage.convertedAmount, ConvertPage.pageAmount, JsNum.mul,
    JsNum.toFixed2]

/-- Witness for C3: the scenario table with `from = EUR`, `to = JPY`
gives rate `150 / 0.85`. -/
theorem claim_C3_witness :
    crossRate t0 "EUR" "JPY" = .ok (.num (150 / (17 / 20))) ∧
    (ConvertPage.onRequest ⟨some "EUR", some "JPY", none⟩
        ⟨true, some t0⟩).1 =
      { status := 200, headers := ConvertPage.pageHeaders,
        rate := some (.num (150 / (17 / 20))),
        converted := some (.num (qToFixed2 (150 / (17 / 20)))) } :=
  claim_C3 t0 "EUR" "JPY" (17 / 20) 150 (by decide) (by decide) (by decide)
    (by decide) (by decide) (by decide) (by rfl) (by rfl) (by norm_num)
    (by norm_num)

/-- The page route answers 404 when the template fetch is not OK. -/
lemma ConvertPage.onRequest_noTemplate (p : ConvertPage.PageParams)
    (env : Env)
    (h : (validOpt (ConvertPage.pageFrom p) &&
        validOpt (ConvertPage.pageTo p)) = true)
    (ha : ((ConvertPage.pageAmount p).isNaN ||
        (ConvertPage.pageAmount p).leZero) = false)
    (ht : env.templateOk = false) :
    ConvertPage.onRequest p env = (errResp 404, [Effect.fetchTemplate]) := by
  unfold ConvertPage.onRequest
  simp [h, ha, ht]

/-- The page route answers 503 when the KV rate table is absent. -/
lemma ConvertPage.onRequest_noTable (p : ConvertPage.PageParams) (env : Env)
    (h : (validOpt (ConvertPage.pageFrom p) &&
        validOpt (ConvertPage.pageTo p)) = true)
    (ha : ((ConvertPage.pageAmount p).isNaN ||
        (ConvertPage.pageAmount p).leZero) = false)
    (ht : env.templateOk = true)
    (htab : env.table = none) :
    ConvertPage.onRequest p env =
      (errResp 503, [Effect.fetchTemplate, Effect.kvGet]) := by
  unfold ConvertPage.onRequest
  simp [h, ha, ht, htab]

/-- The rate API answers 400 on an invalid currency code. -/
lemma RateApi.onRequestGet_invalid (qf qt : Option String) (env : Env)
    (h : (valid3 (jsToUpper (RateApi.jsOr qf "USD")) &&
        valid3 (jsToUpper (RateApi.jsOr qt "EUR"))) = false) :
    RateApi.onRequestGet qf qt env = errResp 400 := by
  unfold RateApi.onRequestGet
  simp [h]

/-- The rate API answers 503 when the KV rate table is absent. -/
lemma RateApi.onRequestGet_noTable (qf qt : Option String) (env : Env)
    (h : (valid3 (jsToUpper (RateApi.jsOr qf "USD")) &&
        valid3 (jsToUpper (RateApi.jsOr qt "EUR"))) = true)
    (htab : env.table = none) :
    RateApi.onRequestGet qf qt env = errResp 503 := by
  unfold RateApi.onRequestGet
  simp [h, htab]

/-- Every response of the page route is either a bare error response with
a non-200 status or the 200 page built from a computed rate. -/
lemma ConvertPage.onRequest_shape (p : ConvertPage.PageParams) (env : Env) :
    (∃ st effs, st ≠ 200 ∧
        ConvertPage.onRequest p env = (errResp st, effs)) ∨
    (∃ r, ConvertPage.onRequest p env =
        ({ status := 200, headers := ConvertPage.pageHeaders, rate := some r,
           converted := some (ConvertPage.convertedAmount
             (ConvertPage.pageAmount p) r) },
         [Effect.fetchTemplate, Effect.kvGet])) := by
  by_cases h : (validOpt (ConvertPage.pageFrom p) &&
      validOpt (ConvertPage.pageTo p)) = true
  · by_cases ha : ((ConvertPage.pageAmount p).isNaN ||
        (ConvertPage.pageAmount p).leZero) = true
    · exact Or.inl ⟨400, [], by norm_num,
        ConvertPage.onRequest_badAmount p env h ha⟩
    · rw [Bool.not_eq_true] at ha
      by_cases ht : env.templateOk = true
      · cases htab : env.table with
        | none =>
            exact Or.inl ⟨503, [Effect.fetchTemplate, Effect.kvGet],
              by norm_num, ConvertPage.onRequest_noTable p env h ha ht htab⟩
        | some t =>
            cases hcr : crossRate t ((ConvertPage.pageFrom p).getD "")
                ((ConvertPage.pageTo p).getD "") with
            | error e =>
                cases e
                exact Or.inl ⟨404, [Effect.fetchTemplate, Effect.kvGet],
                  by norm_num,
                  ConvertPage.onRequest_rateError p env t h ha ht htab hcr⟩
            | ok r =>
                by_cases hr : r.truthy = true
                · exact Or.inr ⟨r,
                    ConvertPage.onRequest_success p env t r h ha ht htab
                      hcr hr⟩
                · rw [Bool.not_eq_true] at hr
                  exact Or.inl ⟨404, [Effect.fetchTemplate, Effect.kvGet],
                    by norm_num,
                    ConvertPage.onRequest_rateFalsy p env t r h ha ht htab
                      hcr hr⟩
      · rw [Bool.not_eq_true] at ht
        exact Or.inl ⟨404, [Effect.fetchTemplate], by norm_num,
          ConvertPage.onRequest_noTemplate p env h ha ht⟩
  · rw [Bool.not_eq_true] at h
    exact Or.inl ⟨404, [], by norm_num, ConvertPage.onRequest_invalid p env h⟩

/-- Every response of the rate API is either a bare error response with a
non-200 status or the 200 plain-text rate response. -/
lemma RateApi.onRequestGet_shape (qf qt : Option String) (env : Env) :
    (∃ st, st ≠ 200 ∧ RateApi.onRequestGet qf qt env = errResp st) ∨
    (∃ r, RateApi.onRequestGet qf qt env =
        { status := 200, headers := RateApi.apiHeaders, rate := some r,
          converted := none }) := by
  by_cases h : (valid3 (jsToUpper (RateApi.jsOr qf "USD")) &&
      valid3 (jsToUpper (RateApi.jsOr qt "EUR"))) = true
  · cases htab : env.table with
    | none =>
        exact Or.inl ⟨503, by norm_num,
          RateApi.onRequestGet_noTable qf qt env h htab⟩
    | some t =>
        cases hcr : crossRate t (jsToUpper (RateApi.jsOr qf "USD"))
            (jsToUpper (RateApi.jsOr qt "EUR")) with
        | error e =>
            cases e
            exact Or.inl ⟨404, by norm_num,
              RateApi.onRequestGet_rateError qf qt env t h htab hcr⟩
        | ok r =>
            by_cases hr : (!r.truthy || !r.isFinite) = true
            · exact Or.inl ⟨404, by norm_num,
                RateApi.onRequestGet_rateReject qf qt env t r h htab hcr hr⟩
            · rw [Bool.not_eq_true] at hr
              exact Or.inr ⟨r,
                RateApi.onRequestGet_success qf qt env t r h htab hcr hr⟩
  · rw [Bool.not_eq_true] at h
    exact Or.inl ⟨400, by norm_num, RateApi.onRequestGet_invalid qf qt env h⟩

/-- With a valid currency pair, the page route answers 400 exactly when
the parsed amount is `NaN` or `<= 0`. -/
lemma ConvertPage.onRequest_400_iff (p : ConvertPage.PageParams) (env : Env)
    (h : (validOpt (ConvertPage.pageFrom p) &&
        validOpt (ConvertPage.pageTo p)) = true) :
    ((ConvertPage.onRequest p env).1.status = 400 ↔
      ((ConvertPage.pageAmount p).isNaN ||
        (ConvertPage.pageAmount p).leZero) = true) := by
  cases hb : ((ConvertPage.pageAmount p).isNaN ||
      (ConvertPage.pageAmount p).leZero) with
  | true =>
      refine iff_of_true ?_ rfl
      rw [ConvertPage.onRequest_badAmount p env h hb]
      rfl
  | false =>
      refine iff_of_false ?_ (by simp)
      intro hst
      by_cases ht : env.templateOk = true
      · cases htab : env.table with
        | none =>
            rw [ConvertPage.onRequest_noTable p env h hb ht htab] at hst
            simp [errResp] at hst
        | some t =>
            cases hcr : crossRate t ((ConvertPage.pageFrom p).getD "")
                ((ConvertPage.pageTo p).getD "") with
            | error e =>
                cases e
                rw [ConvertPage.onRequest_rateError p env t h hb ht htab
                  hcr] at hst
                simp [errResp] at hst
            | ok r =>
                by_cases hr : r.truthy = true
                · rw [ConvertPage.onRequest_success p env t r h hb ht htab
                    hcr hr] at hst
                  simp at hst
                · rw [Bool.not_eq_true] at hr
                  rw [ConvertPage.onRequest_rateFalsy p env t r h hb ht htab
                    hcr hr] at hst
                  simp [errResp] at hst
      · rw [Bool.not_eq_true] at ht
        rw [ConvertPage.onRequest_noTemplate p env h hb ht] at hst
        simp [errResp] at hst

/-- C2 counterexample: with a stored rate of zero (`{EUR: 0}`), the pair
`eur → usd` computes `rate = 1/0 = Infinity`.  The rate API rejects it
(its guard checks `Number.isFinite`), but the conversion page route's
guard is only `!rate`, which Infinity passes: the page responds 200 and
renders the non-finite rate, contradicting the claim that both routes
reject it. -/
theorem claim_C2_counterexample :
    (ConvertPage.onRequest ⟨some "eur", some "usd", none⟩
        ⟨true, some tZero⟩).1.status = 200 ∧
    (ConvertPage.onRequest ⟨some "eur", some "usd", none⟩
        ⟨true, some tZero⟩).1.rate = some .posInf ∧
    JsNum.posInf.isFinite = false ∧
    RateApi.onRequestGet (some "eur") (some "usd") ⟨true, some tZero⟩ =
      errResp 404 := by
  refine ⟨?_, ?_, by decide, ?_⟩
  · simp +decide [ConvertPage.onRequest, ConvertPage.pageFrom,
      ConvertPage.pageTo, ConvertPage.pageAmount, jsToUpper, valid3,
      validOpt, crossRate, getRate, List.lookup, tZero, JsNum.truthy,
      JsNum.isNaN, JsNum.leZero, JsNum.div, errResp]
  · simp +decide [ConvertPage.onRequest, ConvertPage.pageFrom,
      ConvertPage.pageTo, ConvertPage.pageAmount, jsToUpper, valid3,
      validOpt, crossRate, getRate, List.lookup, tZero, JsNum.truthy,
      JsNum.isNaN, JsNum.leZero, JsNum.div, errResp]
  · simp +decide [RateApi.onRequestGet, RateApi.jsOr, jsToUpper, valid3,
      crossRate, getRate, List.lookup, tZero, JsNum.truthy, JsNum.isFinite,
      JsNum.div, errResp]

/-- C2 (amended): for a valid currency pair over a stored table, a
cross-rate computation that fails early, or whose result is falsy
(0, NaN, missing) or non-finite, makes the rate API answer 404; the
conversion page route answers 404 for an early failure or a falsy rate,
but its guard does not test finiteness (an Infinity rate is rendered,
see the counterexample). -/
theorem claim_C2 (t : RateTable) (f c : String) (r : JsNum) (b : Bool)
    (hfv : valid3 f = true) (hcv : valid3 c = true)
    (hfu : jsToUpper f = f) (hcu : jsToUpper c = c) :
    (crossRate t f c = .error () →
      RateApi.onRequestGet (some f) (some c) ⟨b, some t⟩ = errResp 404 ∧
      (ConvertPage.onRequest ⟨some f, some c, none⟩ ⟨true, some t⟩).1 =
        errResp 404) ∧
    (crossRate t f c = .ok r → (r.truthy = false ∨ r.isFinite = false) →
      RateApi.onRequestGet (some f) (some c) ⟨b, some t⟩ = errResp 404) ∧
    (crossRate t f c = .ok r → r.truthy = false →
      (ConvertPage.onRequest ⟨some f, some c, none⟩ ⟨true, some t⟩).1 =
        errResp 404) := by
  have hof : RateApi.jsOr (some f) "USD" = f := by
    simp [RateApi.jsOr, valid3_ne_empty hfv]
  have hoc : RateApi.jsOr (some c) "EUR" = c := by
    simp [RateApi.jsOr, valid3_ne_empty hcv]
  have hv : (valid3 (jsToUpper (RateApi.jsOr (some f) "USD")) &&
      valid3 (jsToUpper (RateApi.jsOr (some c) "EUR"))) = true := by
    rw [hof, hoc, hfu, hcu]
    simp [hfv, hcv]
  have hvp : (validOpt (ConvertPage.pageFrom ⟨some f, some c, none⟩) &&
      validOpt (ConvertPage.pageTo ⟨some f, some c, none⟩)) = true := by
    simp [ConvertPage.pageFrom, ConvertPage.pageTo, hfu, hcu, validOpt,
      hfv, hcv]
  have hap : ((ConvertPage.pageAmount ⟨some f, some c, none⟩).isNaN ||
      (ConvertPage.pageAmount ⟨some f, some c, none⟩).leZero) = false := by
    norm_num [ConvertPage.pageAmount, JsNum.isNaN, JsNum.leZero]
  refine ⟨fun hcr => ⟨?_, ?_⟩, fun hcr hbad => ?_, fun hcr hr => ?_⟩
  · refine RateApi.onRequestGet_rateError (some f) (some c) _ t hv rfl ?_
    rw [hof, hoc, hfu, hcu]
    exact hcr
  · refine (congrArg Prod.fst
      (ConvertPage.onRequest_rateError ⟨some f, some c, none⟩ _ t hvp hap
        rfl rfl ?_)).trans rfl
    simpa [ConvertPage.pageFrom, ConvertPage.pageTo, hfu, hcu] using hcr
  · refine RateApi.onRequestGet_rateReject (some f) (some c) _ t r hv rfl
      ?_ ?_
    · rw [hof, hoc, hfu, hcu]
      exact hcr
    · rcases hbad with hb1 | hb1 <;> simp [hb1]
  · refine (congrArg Prod.fst
      (ConvertPage.onRequest_rateFalsy ⟨some f, some c, none⟩ _ t r hvp hap
        rfl rfl ?_ hr)).trans rfl
    simpa [ConvertPage.pageFrom, ConvertPage.pageTo, hfu, hcu] using hcr

/-- Witness for C2 (amended): `EUR → JPY` over the zero-rate table fails
early (JPY missing), so both routes answer 404. -/
theorem claim_C2_witness :
    RateApi.onRequestGet (some "EUR") (some "JPY") ⟨true, some tZero⟩ =
      errResp 404 ∧
    (ConvertPage.onRequest ⟨some "EUR", some "JPY", none⟩
        ⟨true, some tZero⟩).1 = errResp 404 :=
  (claim_C2 tZero "EUR" "JPY" .undefined true (by decide) (by decide)
      (by decide) (by decide)).1
    (by simp +decide [crossRate, getRate, List.lookup, tZero, JsNum.truthy])

/-- C4 counterexample: currency validation precedes amount validation,
so a request whose amount parses to −5 but whose `from` segment is not a
3-letter code (path `us-to-eur`, amount `-5`) answers 404, not the claimed 400 — though
still with no external fetch. -/
theorem claim_C4_counterexample :
    (parseFloat "-5").leZero = true ∧
    ConvertPage.onRequest ⟨some "us", some "eur", some "-5"⟩ env0 =
      (errResp 404, []) := by
  constructor
  · simp +decide [parseFloat, takeDigits, digitsToNat, isJsWs, isDigitCh,
      JsNum.leZero]
  · exact ConvertPage.onRequest_invalid _ _ (by decide)

/-- C4 (amended): a request with a valid currency pair whose amount
parses to NaN or to a value ≤ 0 answers 400 with no external fetch
performed; a request with an invalid currency pair answers 404, likewise
before any fetch.  In both cases the effect trace is empty: neither the
template fetch nor the KV rate-store lookup executes. -/
theorem claim_C4 (p : ConvertPage.PageParams) (env : Env) :
    ((validOpt (ConvertPage.pageFrom p) &&
        validOpt (ConvertPage.pageTo p)) = true →
      ((ConvertPage.pageAmount p).isNaN = true ∨
        (ConvertPage.pageAmount p).leZero = true) →
      ConvertPage.onRequest p env = (errResp 400, [])) ∧
    ((validOpt (ConvertPage.pageFrom p) &&
        validOpt (ConvertPage.pageTo p)) = false →
      ConvertPage.onRequest p env = (errResp 404, [])) := by
  constructor
  · intro h ha
    refine ConvertPage.onRequest_badAmount p env h ?_
    rcases ha with ha | ha <;> simp [ha]
  · exact ConvertPage.onRequest_invalid p env

/-- Witness for C4 (amended): `/usd-to-eur/0` answers 400 with an empty
effect trace. -/
theorem claim_C4_witness :
    ConvertPage.onRequest ⟨some "usd", some "eur", some "0"⟩ env0 =
      (errResp 400, []) :=
  (claim_C4 ⟨some "usd", some "eur", some "0"⟩ env0).1 (by decide)
    (Or.inr (by simp +decide [ConvertPage.pageAmount, parseFloat,
      takeDigits, digitsToNat, isJsWs, isDigitCh, JsNum.leZero]))

/-- C5: every 200 response of the conversion page route carries the
cache-disabling headers — a `Cache-Control` value containing `no-store`,
plus `Pragma: no-cache` and `Expires: 0` — and every 200 response of the
rate API carries `Access-Control-Allow-Origin: *`. -/
theorem claim_C5 :
    (∀ (p : ConvertPage.PageParams) (env : Env),
      (ConvertPage.onRequest p env).1.status = 200 →
      (ConvertPage.onRequest p env).1.headers.lookup "Cache-Control" =
          some "no-cache, no-store, must-revalidate" ∧
      (∃ pre post, ("no-cache, no-store, must-revalidate" : String).data =
          pre ++ ("no-store" : String).data ++ post) ∧
      (ConvertPage.onRequest p env).1.headers.lookup "Pragma" =
          some "no-cache" ∧
      (ConvertPage.onRequest p env).1.headers.lookup "Expires" =
          some "0") ∧
    (∀ (qf qt : Option String) (env : Env),
      (RateApi.onRequestGet qf qt env).status = 200 →
      (RateApi.onRequestGet qf qt env).headers.lookup
          "Access-Control-Allow-Origin" = some "*") := by
  constructor
  · intro p env h
    rcases ConvertPage.onRequest_shape p env with ⟨st, effs, hne, heq⟩ |
      ⟨r, heq⟩
    · rw [heq] at h
      exact absurd h hne
    · rw [heq]
      exact ⟨rfl,
        ⟨("no-cache, " : String).data, (", must-revalidate" : String).data,
          by decide⟩, rfl, rfl⟩
  · intro qf qt env h
    rcases RateApi.onRequestGet_shape qf qt env with ⟨st, hne, heq⟩ |
      ⟨r, heq⟩
    · rw [heq] at h
      exact absurd h hne
    · rw [heq]
      rfl

/-- Witness for C5: the page `/usd-to-eur` over the scenario table
answers 200, and so does `GET /api/rate` with no parameters. -/
theorem claim_C5_witness :
    ((ConvertPage.onRequest ⟨some "usd", some "eur", none⟩
        env0).1.headers.lookup "Cache-Control" =
      some "no-cache, no-store, must-revalidate") ∧
    (RateApi.onRequestGet none none env0).headers.lookup
        "Access-Control-Allow-Origin" = some "*" :=
  ⟨(claim_C5.1 ⟨some "usd", some "eur", none⟩ env0
      (by simp +decide [ConvertPage.onRequest, ConvertPage.pageFrom,
        ConvertPage.pageTo, ConvertPage.pageAmount, jsToUpper, valid3,
        validOpt, crossRate, getRate, List.lookup, env0, t0, JsNum.truthy,
        JsNum.isNaN, JsNum.leZero, errResp])).1,
   claim_C5.2 none none env0
      (by simp +decide [RateApi.onRequestGet, RateApi.jsOr, jsToUpper,
        valid3, crossRate, getRate, List.lookup, env0, t0, JsNum.truthy,
        JsNum.isFinite, errResp])⟩

/-- C8 counterexample: an empty amount segment is falsy, so the code
never calls `parseFloat` on it and defaults the amount to 1: the request
is answered 200 even though `parseFloat("")` is NaN — the claimed
"reject iff parseFloat is NaN or ≤ 0" fails at the empty string. -/
theorem claim_C8_counterexample :
    (parseFloat "").isNaN = true ∧
    (ConvertPage.onRequest ⟨some "usd", some "eur", some ""⟩ env0).1.status =
      200 := by
  constructor
  · simp +decide [parseFloat, takeDigits, digitsToNat, isJsWs, isDigitCh,
      JsNum.isNaN]
  · simp +decide [ConvertPage.onRequest, ConvertPage.pageFrom,
      ConvertPage.pageTo, ConvertPage.pageAmount, jsToUpper, valid3,
      validOpt, crossRate, getRate, List.lookup, env0, t0, JsNum.truthy,
      JsNum.isNaN, JsNum.leZero, errResp]

/-- C8 (amended): for a valid currency pair and a nonempty amount
segment, the route answers 400 exactly when `parseFloat` of the segment
is NaN or ≤ 0 (JavaScript comparison); an empty segment is treated as
absent and defaults to amount 1.  In particular `10abc` parses to 10 and
`1e3` to 1000, so both are accepted and converted. -/
theorem claim_C8 :
    (∀ (s : String) (env : Env), s ≠ "" →
      ((ConvertPage.onRequest ⟨some "usd", some "eur", some s⟩
          env).1.status = 400 ↔
        ((parseFloat s).isNaN = true ∨ (parseFloat s).leZero = true))) ∧
    parseFloat "10abc" = .num 10 ∧ parseFloat "1e3" = .num 1000 := by
  refine ⟨?_, by simp +decide [parseFloat, takeDigits, digitsToNat,
    isJsWs, isDigitCh], by simp +decide [parseFloat, takeDigits,
    digitsToNat, isJsWs, isDigitCh]⟩
  intro s env hs
  have hamt : ConvertPage.pageAmount ⟨some "usd", some "eur", some s⟩ =
      parseFloat s := by
    simp [ConvertPage.pageAmount, bne_iff_ne, hs]
  have hv : (validOpt (ConvertPage.pageFrom
        ⟨some "usd", some "eur", some s⟩) &&
      validOpt (ConvertPage.pageTo ⟨some "usd", some "eur", some s⟩)) =
        true := by
    show (validOpt (some (jsToUpper "usd")) &&
      validOpt (some (jsToUpper "eur"))) = true
    decide
  rw [ConvertPage.onRequest_400_iff _ env hv, hamt, Bool.or_eq_true]

/-- Witness for C8 (amended): the path pair `usd-to-eur` with amount segment `-5` answers 400. -/
theorem claim_C8_witness :
    (ConvertPage.onRequest ⟨some "usd", some "eur", some "-5"⟩
        env0).1.status = 400 :=
  (claim_C8.1 "-5" env0 (by decide)).mpr
    (Or.inr (by simp +decide [parseFloat, takeDigits, digitsToNat, isJsWs,
      isDigitCh, JsNum.leZero]))

/-- C10: the rate API defaults an absent `from` parameter to `USD` and an
absent `to` parameter to `EUR` — a request with no query string behaves
exactly like `from=USD&to=EUR` — and when the stored table has a nonzero
`EUR` entry `q`, `GET /api/rate` with no parameters answers 200 with
rate `q`. -/
theorem claim_C10 :
    (∀ env : Env, RateApi.onRequestGet none none env =
      RateApi.onRequestGet (some "USD") (some "EUR") env) ∧
    (∀ (t : RateTable) (b : Bool) (q : ℚ),
      t.rates.lookup "EUR" = some q → q ≠ 0 →
      RateApi.onRequestGet none none ⟨b, some t⟩ =
        { status := 200, headers := RateApi.apiHeaders,
          rate := some (.num q), converted := none }) := by
  constructor
  · intro env
    rfl
  · intro t b q hq hq0
    refine RateApi.onRequestGet_success none none ⟨b, some t⟩ t (.num q)
      (by decide) rfl ?_ ?_
    · show crossRate t "USD" "EUR" = .ok (.num q)
      unfold crossRate
      rw [if_pos rfl]
      simp [getRate, hq]
    · simp [JsNum.truthy, JsNum.isFinite, hq0]

/-- Witness for C10 over the scenario table: no-parameter request gives
the stored EUR rate 0.85. -/
theorem claim_C10_witness :
    RateApi.onRequestGet none none env0 =
      RateApi.onRequestGet (some "USD") (some "EUR") env0 ∧
    RateApi.onRequestGet none none ⟨true, some t0⟩ =
      { status := 200, headers := RateApi.apiHeaders,
        rate := some (.num (17 / 20)), converted := none } :=
  ⟨claim_C10.1 env0,
   claim_C10.2 t0 true (17 / 20) (by rfl) (by norm_num)⟩

end CurrencyConverter
